import Mathlib

/-!
Verification of the native boundary lifecycle code of MemoriaOs.

The repository holds three C++ translation units, all JNI boundary glue:

* `app/src/main/cpp/native-lib.cpp` — a free-function JNI surface for
  `CascadeAIService` with two process-wide globals (`g_vm`, `g_context`);
  modelled below with the `nl` prefix.
* `app/src/main/cpp/ai/cascade/src/CascadeAIService.cpp` — a class-based
  (Pimpl) JNI surface for the same Java class, with globals
  `g_cascadeService` and `g_vm`; modelled below with the `cs` prefix.
* `oracle-drive-integration/src/main/cpp/oracle_integration_jni.cpp` —
  stateless Oracle Drive stubs; modelled with the `oracle` prefix.

JNI calls that can fail (GetJavaVM, GetEnv, GetObjectClass, NewGlobalRef,
GetStringUTFChars) are modelled by a record of success flags, `JniEnv`.
Global references are modelled by an allocation counter and the list of
reference ids currently pinned (`RefHeap`), so that leaks and double
releases are visible as state. Calling GetStringUTFChars on a null jstring
is undefined behaviour in JNI; it is modelled as a `fault` outcome.
-/

/-- Which JNI operations succeed during one native call. Each flag stands for
the corresponding JNI function returning a usable value (JNI_OK respectively
a non-null pointer). -/
structure JniEnv where
  getJavaVMOk : Bool
  getEnvOk : Bool
  getObjectClassOk : Bool
  newGlobalRefOk : Bool
  getStringUTFCharsOk : Bool
deriving DecidableEq

/-- Bookkeeping of JNI global references: the next fresh reference id and the
ids created by NewGlobalRef and not yet deleted by DeleteGlobalRef. -/
structure RefHeap where
  nextRef : Nat
  live : List Nat
deriving DecidableEq

/-- env->NewGlobalRef(obj): for a non-null obj and a succeeding JNI call it
pins a fresh global reference; for a null obj (or on failure) it returns
null and pins nothing. -/
def newGlobalRef (e : JniEnv) (nonNull : Bool) (h : RefHeap) : Option Nat × RefHeap :=
  if nonNull && e.newGlobalRefOk then
    (some h.nextRef, RefHeap.mk (h.nextRef + 1) (h.nextRef :: h.live))
  else (none, h)

/-- env->DeleteGlobalRef(r): the reference id r stops being live. -/
def deleteGlobalRef (r : Nat) (h : RefHeap) : RefHeap :=
  RefHeap.mk h.nextRef (h.live.erase r)

/-- Outcome of a native call as seen across the JNI boundary: a returned
value, or a fault (undefined behaviour / crash) that never yields a value. -/
inductive JniOutcome (α : Type) where
  | ok : α → JniOutcome α
  | fault : JniOutcome α
deriving DecidableEq

/-! ## native-lib.cpp (free-function surface) -/

/-- The process-wide state of native-lib.cpp: the statics `g_vm` and
`g_context`, together with the global-reference bookkeeping. -/
structure NLState where
  g_vm : Option Unit
  g_context : Option Nat
  heap : RefHeap
deriving DecidableEq

/-- The state before any call: both statics are null and no global reference
is pinned. -/
def nlS0 : NLState := NLState.mk none none (RefHeap.mk 0 [])

/-- Java_..._CascadeAIService_nativeInitialize of native-lib.cpp. It stores
the JavaVM (returning early if GetJavaVM fails) and, when `context` is
non-null, overwrites `g_context` with NewGlobalRef(context) — without
releasing any previously stored reference — returning early if the new
reference is null. The function returns void. -/
def nlNativeInitialize (e : JniEnv) (context : Bool) (s : NLState) : NLState :=
  if e.getJavaVMOk then
    let s1 : NLState := { s with g_vm := some () }
    if context then
      let p := newGlobalRef e true s1.heap
      { s1 with g_context := p.1, heap := p.2 }
    else s1
  else s

/-- Java_..._CascadeAIService_nativeProcessRequest of native-lib.cpp. It
checks the request for null, converts it with GetStringUTFChars (which may
fail), and otherwise returns a constant response. It reads and writes no
global state. -/
def nlNativeProcessRequest (e : JniEnv) (request : Option String) : String :=
  match request with
  | none => "\x7b'error':'Invalid request'\x7d"
  | some _ =>
    if e.getStringUTFCharsOk then
      "\x7b'content':'Request processed by native code', 'confidence':0.9\x7d"
    else "\x7b'error':'Failed to process request'\x7d"

/-- Java_..._CascadeAIService_nativeShutdown of native-lib.cpp: deletes the
global context reference when present and nulls `g_context`. -/
def nlNativeShutdown (s : NLState) : NLState :=
  match s.g_context with
  | some r => { s with g_context := none, heap := deleteGlobalRef r s.heap }
  | none => s

/-- JNI_OnUnload of native-lib.cpp: obtains a JNIEnv (returning without any
change if GetEnv fails) and then performs the same guarded release as
nativeShutdown. -/
def nlJniOnUnload (e : JniEnv) (s : NLState) : NLState :=
  if e.getEnvOk then
    match s.g_context with
    | some r => { s with g_context := none, heap := deleteGlobalRef r s.heap }
    | none => s
  else s

/-! ## CascadeAIService.cpp (class-based Pimpl surface) -/

/-- CascadeAIService::Impl: the members jvm_ and context_ (a global
reference id, or null). -/
structure ImplState where
  jvm : Option Unit
  ctx : Option Nat
deriving DecidableEq

/-- CascadeAIService: the opaque pImpl_ pointer (always set by the
constructor, nullable in the type). -/
structure ServiceState where
  pImpl : Option ImplState
deriving DecidableEq

/-- The process-wide state of CascadeAIService.cpp: the anonymous-namespace
globals g_cascadeService and g_vm, with the global-reference bookkeeping. -/
structure CSState where
  g_cascadeService : Option ServiceState
  g_vm : Option Unit
  heap : RefHeap
deriving DecidableEq

/-- The state before any call. -/
def csS0 : CSState := CSState.mk none none (RefHeap.mk 0 [])

/-- CascadeAIService::Impl::initialize(vm, context): stores jvm_, fails when
GetEnv fails; for a non-null context it fails when GetObjectClass fails and
otherwise stores context_ = NewGlobalRef(context) without checking the
result. Returns (success, new Impl members, new reference heap). -/
def implInitialize (e : JniEnv) (context : Option Nat) (impl : ImplState)
    (h : RefHeap) : Bool × ImplState × RefHeap :=
  let impl1 : ImplState := { impl with jvm := some () }
  if e.getEnvOk then
    match context with
    | none => (true, impl1, h)
    | some _ =>
      if e.getObjectClassOk then
        let p := newGlobalRef e true h
        (true, { impl1 with ctx := p.1 }, p.2)
      else (false, impl1, h)
  else (false, impl1, h)

/-- CascadeAIService::Impl::shutdown(): when jvm_ is set, obtains a JNIEnv
and — when that succeeds and context_ is non-null — deletes the global
reference and nulls context_. -/
def implShutdown (e : JniEnv) (impl : ImplState) (h : RefHeap) : ImplState × RefHeap :=
  if impl.jvm.isSome then
    if e.getEnvOk then
      match impl.ctx with
      | some r => ({ impl with ctx := none }, deleteGlobalRef r h)
      | none => (impl, h)
    else (impl, h)
  else (impl, h)

/-- The constant JSON body built by CascadeAIService::Impl::processRequest
(a raw string literal in the source, newlines and indentation included). -/
def cascadeSuccessJson : String :=
  "\x7b\n            \"status\": \"success\",\n            \"agent\": \"Cascade\",\n            \"version\": \"1.0.0\",\n            \"response\": \"Request processed by Cascade AI agent\"\n        \x7d"

/-- CascadeAIService::processRequest: delegates to Impl::processRequest when
pImpl_ is set (which ignores the request and returns the constant JSON) and
returns null otherwise. -/
def serviceProcessRequest (svc : ServiceState) : Option String :=
  match svc.pImpl with
  | some _ => some cascadeSuccessJson
  | none => none

/-- The error body of the JNI wrapper when the service is not initialized. -/
def errNotInitJson : String := "\x7b\"error\":\"Service not initialized\"\x7d"

/-- The error body of the JNI wrapper when GetStringUTFChars fails. -/
def errInvalidRequestJson : String := "\x7b\"error\":\"Invalid request\"\x7d"

/-- Java_..._CascadeAIService_nativeInitialize of CascadeAIService.cpp.
Fast path: when g_cascadeService is already set it returns JNI_TRUE without
touching state. Otherwise it stores g_vm (JNI_FALSE if GetJavaVM fails),
constructs the service, pins globalContext = NewGlobalRef(context), and
calls Impl::initialize with it. On Impl failure it resets the service and
returns JNI_FALSE — without releasing globalContext or clearing g_vm. -/
def csNativeInitialize (e : JniEnv) (context : Bool) (s : CSState) : Bool × CSState :=
  if s.g_cascadeService.isSome then (true, s)
  else if e.getJavaVMOk then
    let s1 : CSState := { s with g_vm := some () }
    let p := newGlobalRef e context s1.heap
    let r := implInitialize e p.1 (ImplState.mk none none) p.2
    if r.1 then
      (true, { s1 with g_cascadeService := some (ServiceState.mk (some r.2.1)),
                       heap := r.2.2 })
    else
      (false, { s1 with g_cascadeService := none, heap := r.2.2 })
  else (false, s)

/-- Java_..._CascadeAIService_nativeProcessRequest of CascadeAIService.cpp.
When the service is not initialized it returns the not-initialized error
body. Otherwise it calls GetStringUTFChars on the request without a null
check — a fault for a null request — then either the invalid-request error
body (conversion failure) or the service response. No state is mutated. -/
def csNativeProcessRequest (e : JniEnv) (request : Option String) (s : CSState) :
    JniOutcome (Option String) :=
  match s.g_cascadeService with
  | none => JniOutcome.ok (some errNotInitJson)
  | some svc =>
    match request with
    | none => JniOutcome.fault
    | some _ =>
      if e.getStringUTFCharsOk then JniOutcome.ok (serviceProcessRequest svc)
      else JniOutcome.ok (some errInvalidRequestJson)

/-- Java_..._CascadeAIService_nativeShutdown of CascadeAIService.cpp: when
the service exists, calls shutdown() (delegating to Impl::shutdown when
pImpl_ is set) and resets g_cascadeService; then nulls g_vm. -/
def csNativeShutdown (e : JniEnv) (s : CSState) : CSState :=
  let s1 : CSState :=
    match s.g_cascadeService with
    | some svc =>
      match svc.pImpl with
      | some impl =>
        let q := implShutdown e impl s.heap
        { s with g_cascadeService := none, heap := q.2 }
      | none => { s with g_cascadeService := none }
    | none => s
  { s1 with g_vm := none }

/-- The service-side context reference visible at the boundary: context_ of
the Impl held by g_cascadeService, when all of those exist. -/
def csContextRef (s : CSState) : Option Nat :=
  match s.g_cascadeService with
  | none => none
  | some svc =>
    match svc.pImpl with
    | none => none
    | some impl => impl.ctx

/-- One external call into the class-based surface (the JNI environment
behaviour of the call included). -/
inductive COp where
  | opInit : JniEnv → Bool → COp
  | opProcess : JniEnv → Option String → COp
  | opShutdown : JniEnv → COp

/-- State transition of one call into the class-based surface. processRequest
mutates no state. -/
def csStep (s : CSState) : COp → CSState
  | COp.opInit e c => (csNativeInitialize e c s).2
  | COp.opProcess _ _ => s
  | COp.opShutdown e => csNativeShutdown e s

/-- The state after a sequence of calls into the class-based surface,
starting from the pristine state. -/
def csRun (ops : List COp) : CSState := ops.foldl csStep csS0

/-! ## oracle_integration_jni.cpp -/

/-- The state of the Oracle Drive translation unit. The file declares no
mutable global at all, so the state carries nothing. -/
structure OracleState where
deriving DecidableEq

/-- Java_..._OracleDriveNative_getVersion: logs and returns the constant
version string; no state is read or written. -/
def oracleGetVersion (s : OracleState) : String × OracleState :=
  ("Genesis Oracle Drive Integration v1.0.0", s)

/-- Java_..._OracleDriveNative_initialize: logs and returns JNI_TRUE
unconditionally; no state is read or written. -/
def oracleInitialize (s : OracleState) : Bool × OracleState :=
  (true, s)

/-- Java_..._OracleDriveNative_shutdown: logs only; no state is read or
written. -/
def oracleShutdown (s : OracleState) : OracleState := s

/-! ## Substring containment, used to state response shapes -/

/-- Whether pat is an initial segment of s. -/
def leadsWith : List Char → List Char → Bool
  | [], _ => true
  | _ :: _, [] => false
  | a :: as, b :: bs => a == b && leadsWith as bs

/-- Whether pat occurs contiguously inside s. -/
def hasSub (pat : List Char) : List Char → Bool
  | [] => leadsWith pat []
  | c :: rest => leadsWith pat (c :: rest) || hasSub pat rest

/-- Whether the string pat occurs contiguously inside the string s. -/
def containsSub (pat s : String) : Bool := hasSub pat.data s.data

/-! ## Concrete JNI environments used by counterexamples and witnesses -/

/-- Every JNI operation succeeds. -/
def eOk : JniEnv := JniEnv.mk true true true true true

/-- GetEnv fails (for example the calling thread is detached); everything
else succeeds. -/
def eNoEnv : JniEnv := JniEnv.mk true false true true true

/-- NewGlobalRef returns null (the pin fails); everything else succeeds. -/
def eNoPin : JniEnv := JniEnv.mk true true true false true

/-- The class-based state after one successful nativeInitialize with a
non-null context from the pristine state. -/
def csInited : CSState := (csNativeInitialize eOk true csS0).2

/-- The free-function state after one nativeInitialize with a non-null
context from the pristine state. -/
def nlInited : NLState := nlNativeInitialize eOk true nlS0

/-- Well-formedness of the class-based state: a constructed service always
carries its Impl, because the CascadeAIService constructor sets pImpl_. -/
def csWf (s : CSState) : Prop :=
  ∀ svc : ServiceState, s.g_cascadeService = some svc → svc.pImpl.isSome = true

/-! ## Helper lemmas -/

/-- After nativeShutdown of native-lib.cpp the context global is null. -/
theorem nl_shutdown_context_none (s : NLState) : (nlNativeShutdown s).g_context = none := by
  unfold nlNativeShutdown
  cases h : s.g_context with
  | none => exact h
  | some r => rfl

/-- nativeShutdown of native-lib.cpp does nothing when the context global is
already null. -/
theorem nl_shutdown_noop (s : NLState) (h : s.g_context = none) :
    nlNativeShutdown s = s := by
  unfold nlNativeShutdown
  rw [h]

/-- After nativeShutdown of CascadeAIService.cpp both globals are null. -/
theorem cs_shutdown_clears (e : JniEnv) (s : CSState) :
    (csNativeShutdown e s).g_cascadeService = none ∧ (csNativeShutdown e s).g_vm = none := by
  unfold csNativeShutdown
  cases h : s.g_cascadeService with
  | none => exact ⟨h, rfl⟩
  | some svc =>
    obtain ⟨pImpl⟩ := svc
    cases pImpl with
    | none => exact ⟨rfl, rfl⟩
    | some impl => exact ⟨rfl, rfl⟩

/-- nativeShutdown of CascadeAIService.cpp does nothing when both globals are
already null. -/
theorem cs_shutdown_noop (e : JniEnv) (s : CSState)
    (hsvc : s.g_cascadeService = none) (hvm : s.g_vm = none) :
    csNativeShutdown e s = s := by
  unfold csNativeShutdown
  rw [hsvc]
  cases s
  simp_all

/-- A second nativeShutdown of CascadeAIService.cpp changes nothing. -/
theorem cs_shutdown_idem (e1 e2 : JniEnv) (s : CSState) :
    csNativeShutdown e2 (csNativeShutdown e1 s) = csNativeShutdown e1 s :=
  cs_shutdown_noop e2 (csNativeShutdown e1 s) (cs_shutdown_clears e1 s).1
    (cs_shutdown_clears e1 s).2

/-- A second nativeShutdown of native-lib.cpp changes nothing. -/
theorem nl_shutdown_idem (s : NLState) :
    nlNativeShutdown (nlNativeShutdown s) = nlNativeShutdown s :=
  nl_shutdown_noop (nlNativeShutdown s) (nl_shutdown_context_none s)

/-- When nativeInitialize of CascadeAIService.cpp reports success, the
service global is set afterwards. -/
theorem cs_init_success_isSome (e : JniEnv) (c : Bool) (s : CSState)
    (h : (csNativeInitialize e c s).1 = true) :
    ((csNativeInitialize e c s).2).g_cascadeService.isSome = true := by
  unfold csNativeInitialize at h ⊢
  by_cases hs : s.g_cascadeService.isSome = true
  · simp [hs]
  · simp only [hs, if_false, Bool.false_eq_true] at h ⊢
    by_cases hvm : e.getJavaVMOk = true
    · simp only [hvm, if_true] at h ⊢
      split at h
      · next hr => simp [hr]
      · next hr => simp at h
    · simp_all

/-- The fast path: nativeInitialize of CascadeAIService.cpp while the
service global is set returns JNI_TRUE and leaves the state untouched. -/
theorem cs_init_fastpath (e : JniEnv) (c : Bool) (s : CSState)
    (h : s.g_cascadeService.isSome = true) :
    csNativeInitialize e c s = (true, s) := by
  unfold csNativeInitialize
  simp [h]

/-- After nativeShutdown of CascadeAIService.cpp the boundary context
reference is null (the service that held it is gone). -/
theorem cs_shutdown_ctx_none (e : JniEnv) (s : CSState) :
    csContextRef (csNativeShutdown e s) = none := by
  unfold csContextRef
  rw [(cs_shutdown_clears e s).1]

/-- A set boundary context reference forces the service global to be set. -/
theorem cs_ctx_isSome_init (s : CSState) (h : (csContextRef s).isSome = true) :
    s.g_cascadeService.isSome = true := by
  unfold csContextRef at h
  cases hs : s.g_cascadeService with
  | none => rw [hs] at h; simp at h
  | some svc => simp [hs]

/-- nativeInitialize of CascadeAIService.cpp called with a null context never
creates a boundary context reference. -/
theorem cs_init_null_ctx (e : JniEnv) (s : CSState)
    (h : (csContextRef ((csNativeInitialize e false s).2)).isSome = true) :
    (csContextRef s).isSome = true := by
  unfold csNativeInitialize at h
  by_cases hs : s.g_cascadeService.isSome = true
  · simpa [hs] using h
  · by_cases hvm : e.getJavaVMOk = true
    · by_cases henv : e.getEnvOk = true
      · simp [hs, hvm, henv, implInitialize, newGlobalRef, csContextRef] at h
      · simp [hs, hvm, henv, implInitialize, newGlobalRef, csContextRef] at h
    · simp [hs, hvm, csContextRef] at h
      unfold csContextRef
      exact h

/-- In any run of the class-based surface, a set boundary context reference
can only come from an initialize call that was handed a non-null context. -/
theorem cs_ctx_origin (ops : List COp) : ∀ s : CSState,
    (csContextRef (ops.foldl csStep s)).isSome = true →
    (csContextRef s).isSome = true ∨ ∃ e : JniEnv, COp.opInit e true ∈ ops := by
  induction ops with
  | nil => intro s h; exact Or.inl h
  | cons op rest ih =>
    intro s h
    rcases ih (csStep s op) h with h1 | ⟨e, he⟩
    · cases op with
      | opInit e c =>
        cases c with
        | false =>
          simp only [csStep] at h1
          exact Or.inl (cs_init_null_ctx e s h1)
        | true => exact Or.inr ⟨e, List.mem_cons_self _ _⟩
      | opProcess e r => exact Or.inl h1
      | opShutdown e =>
        exfalso
        simp only [csStep] at h1
        rw [cs_shutdown_ctx_none e s] at h1
        simp at h1
    · exact Or.inr ⟨e, List.mem_cons_of_mem _ he⟩

/-- Every call of the class-based surface preserves well-formedness. -/
theorem cs_step_wf (s : CSState) (op : COp) (h : csWf s) : csWf (csStep s op) := by
  cases op with
  | opProcess e r => exact h
  | opShutdown e =>
    intro svc hsvc
    simp only [csStep] at hsvc
    rw [(cs_shutdown_clears e s).1] at hsvc
    exact absurd hsvc (by simp)
  | opInit e c =>
    intro svc hsvc
    simp only [csStep] at hsvc
    unfold csNativeInitialize at hsvc
    by_cases hs : s.g_cascadeService.isSome = true
    · simp only [hs, if_true] at hsvc
      exact h svc hsvc
    · by_cases hvm : e.getJavaVMOk = true
      · simp only [hs, Bool.false_eq_true, if_false, hvm, if_true] at hsvc
        split at hsvc
        · simp at hsvc
          rw [← hsvc]
          rfl
        · simp at hsvc
      · simp only [hs, Bool.false_eq_true, if_false, hvm, if_true] at hsvc
        exact h svc hsvc

/-- Well-formedness is preserved along any call sequence. -/
theorem cs_foldl_wf (ops : List COp) : ∀ s : CSState, csWf s → csWf (ops.foldl csStep s) := by
  induction ops with
  | nil => intro s h; exact h
  | cons op rest ih => intro s h; exact ih (csStep s op) (cs_step_wf s op h)

/-- Every reachable state of the class-based surface is well-formed. -/
theorem cs_run_wf (ops : List COp) : csWf (csRun ops) :=
  cs_foldl_wf ops csS0 (fun svc hsvc => absurd hsvc (by simp [csS0]))

/-! ## Claim theorems -/

/-- C1, counterexample. In the free-function surface (native-lib.cpp) a
second nativeInitialize with a non-null context is not a no-op: it pins a
fresh global context reference without releasing the first, so the state
after two initialize calls differs from the state after one (g_context
points to a new reference and both references stay live). -/
theorem c1_double_init_not_noop :
    nlNativeInitialize eOk true (nlNativeInitialize eOk true nlS0) ≠
      nlNativeInitialize eOk true nlS0 := by decide

/-- C1, amended. In the class-based surface (CascadeAIService.cpp) a second
nativeInitialize after a successful one — with any environment and any
context — reports JNI_TRUE and leaves the state exactly as it was, so there
the second success result equals the first (both JNI_TRUE). -/
theorem c1_init_idempotent_cs (e1 e2 : JniEnv) (c1 c2 : Bool) (s : CSState)
    (h : (csNativeInitialize e1 c1 s).1 = true) :
    csNativeInitialize e2 c2 ((csNativeInitialize e1 c1 s).2) =
      (true, (csNativeInitialize e1 c1 s).2) :=
  cs_init_fastpath e2 c2 _ (cs_init_success_isSome e1 c1 s h)

/-- C1, witness: a concrete successful initialize followed by a second call. -/
theorem c1_init_idempotent_cs_witness :
    csNativeInitialize eOk false csInited = (true, csInited) :=
  c1_init_idempotent_cs eOk eOk true false csS0 (by decide)

/-- C2. In both surfaces, a shutdown followed by any number of further
shutdown calls (under arbitrary JNI environments) yields exactly the state
of the single shutdown; in particular the later calls leave the
global-reference bookkeeping untouched, so the context reference is never
released twice. -/
theorem c2_shutdown_idempotent :
    (∀ (n : Nat) (s : NLState),
        Nat.iterate nlNativeShutdown n (nlNativeShutdown s) = nlNativeShutdown s) ∧
    (∀ (es : List JniEnv) (e0 : JniEnv) (s : CSState),
        es.foldl (fun t e => csNativeShutdown e t) (csNativeShutdown e0 s) =
          csNativeShutdown e0 s) := by
  constructor
  · intro n
    induction n with
    | zero => intro s; rfl
    | succ k ih =>
      intro s
      rw [Function.iterate_succ_apply, nl_shutdown_idem, ih]
  · intro es
    induction es with
    | nil => intro e0 s; rfl
    | cons e rest ih =>
      intro e0 s
      have h2 : csNativeShutdown e (csNativeShutdown e0 s) = csNativeShutdown e0 s :=
        cs_shutdown_idem e0 e s
      simp only [List.foldl_cons, h2]
      exact ih e0 s

/-- C3, counterexample. The free-function surface has no initialization
guard: nativeProcessRequest called before any initialize (it reads no state
at all) with a non-null payload returns the constant success-shaped body,
which contains no error field. -/
theorem c3_no_guard_success_shaped :
    nlNativeProcessRequest eOk (some "x") =
      "\x7b'content':'Request processed by native code', 'confidence':0.9\x7d" ∧
    containsSub "error" (nlNativeProcessRequest eOk (some "x")) = false := by decide

/-- C3, amended. In the class-based surface, nativeProcessRequest in any
state with g_cascadeService unset (any environment, any payload, null
included) returns the error-shaped body with an error field and never
faults. -/
theorem c3_uninitialized_error_cs (e : JniEnv) (req : Option String) (s : CSState)
    (h : s.g_cascadeService = none) :
    csNativeProcessRequest e req s = JniOutcome.ok (some errNotInitJson) ∧
    containsSub "error" errNotInitJson = true := by
  constructor
  · unfold csNativeProcessRequest
    rw [h]
  · decide

/-- C3, witness: the pristine state. -/
theorem c3_uninitialized_error_cs_witness :
    csNativeProcessRequest eOk (some "x") csS0 = JniOutcome.ok (some errNotInitJson) ∧
    containsSub "error" errNotInitJson = true :=
  c3_uninitialized_error_cs eOk (some "x") csS0 rfl

/-- C4, code bug. In the class-based surface an initialized service passes a
null request straight to GetStringUTFChars, which is undefined behaviour (a
fault), instead of returning an error-shaped response; the free-function
surface checks for null and returns the error body. -/
theorem c4_null_request_faults :
    csInited.g_cascadeService.isSome = true ∧
    csNativeProcessRequest eOk none csInited = JniOutcome.fault ∧
    nlNativeProcessRequest eOk none = "\x7b'error':'Invalid request'\x7d" := by decide

/-- C5, code bug. When Impl::initialize fails (here: GetEnv fails) after the
wrapper pinned the non-null context with NewGlobalRef, nativeInitialize
returns JNI_FALSE and resets the service — but the pinned reference is never
released (it stays live) and g_vm stays set, so partial state leaks. And
when the pin itself fails (NewGlobalRef returns null), initialize does not
fail at all: it returns JNI_TRUE. -/
theorem c5_failed_init_leaks :
    (csNativeInitialize eNoEnv true csS0).1 = false ∧
    ((csNativeInitialize eNoEnv true csS0).2).g_cascadeService = none ∧
    ((csNativeInitialize eNoEnv true csS0).2).heap.live = [0] ∧
    ((csNativeInitialize eNoEnv true csS0).2).g_vm = some () ∧
    (csNativeInitialize eNoPin true csS0).1 = true := by decide

/-- C6, counterexample. When NewGlobalRef cannot pin the supplied non-null
context, nativeInitialize of the class-based surface still reports success
while the stored context reference is null — refuting that a successful
initialize with a non-null context yields a non-null contextRef. -/
theorem c6_pin_failure_null_ctx :
    (csNativeInitialize eNoPin true csS0).1 = true ∧
    csContextRef ((csNativeInitialize eNoPin true csS0).2) = none := by decide

/-- C6, amended. The context reference is non-null only when the service is
initialized; in any reachable state it is non-null only if some initialize
call was handed a non-null context; a first initialize from an uninitialized
state with a non-null context succeeds with a non-null context reference
provided every JNI operation (the NewGlobalRef pin included) succeeds; and
after any shutdown the context reference is null. -/
theorem c6_context_ref_lifecycle :
    (∀ s : CSState, (csContextRef s).isSome = true → s.g_cascadeService.isSome = true) ∧
    (∀ ops : List COp, (csContextRef (csRun ops)).isSome = true →
        ∃ e : JniEnv, COp.opInit e true ∈ ops) ∧
    (∀ (e : JniEnv) (s : CSState), s.g_cascadeService = none →
        e.getJavaVMOk = true → e.getEnvOk = true → e.getObjectClassOk = true →
        e.newGlobalRefOk = true →
        (csNativeInitialize e true s).1 = true ∧
        (csContextRef ((csNativeInitialize e true s).2)).isSome = true) ∧
    (∀ (e : JniEnv) (s : CSState), csContextRef (csNativeShutdown e s) = none) := by
  refine ⟨cs_ctx_isSome_init, ?_, ?_, cs_shutdown_ctx_none⟩
  · intro ops h
    rcases cs_ctx_origin ops csS0 h with h0 | hex
    · simp [csContextRef, csS0] at h0
    · exact hex
  · intro e s hs hvm henv hcls hpin
    have hs1 : s.g_cascadeService.isSome = false := by rw [hs]; rfl
    unfold csNativeInitialize
    simp [hs1, hvm, henv, hcls, hpin, implInitialize, newGlobalRef, csContextRef]

/-- C6, witness: a concrete all-succeeding initialize from the pristine
state. -/
theorem c6_context_ref_lifecycle_witness :
    (csNativeInitialize eOk true csS0).1 = true ∧
    (csContextRef ((csNativeInitialize eOk true csS0).2)).isSome = true :=
  c6_context_ref_lifecycle.2.2.1 eOk csS0 rfl rfl rfl rfl rfl

/-- C7. In any reachable initialized state of the class-based surface,
nativeProcessRequest on a non-null decodable payload returns the constant
success-shaped body — independent of the payload — and that body carries
the fields status "success", agent "Cascade", version "1.0.0" and the
human-readable response message. -/
theorem c7_success_response_shape (ops : List COp) (e : JniEnv) (req : String)
    (hinit : (csRun ops).g_cascadeService.isSome = true)
    (hdec : e.getStringUTFCharsOk = true) :
    csNativeProcessRequest e (some req) (csRun ops) =
      JniOutcome.ok (some cascadeSuccessJson) ∧
    containsSub "\"status\": \"success\"" cascadeSuccessJson = true ∧
    containsSub "\"agent\": \"Cascade\"" cascadeSuccessJson = true ∧
    containsSub "\"version\": \"1.0.0\"" cascadeSuccessJson = true ∧
    containsSub "\"response\": \"Request processed by Cascade AI agent\"" cascadeSuccessJson
      = true := by
  refine ⟨?_, by decide, by decide, by decide, by decide⟩
  obtain ⟨svc, hsvc⟩ := Option.isSome_iff_exists.mp hinit
  obtain ⟨impl, himpl⟩ := Option.isSome_iff_exists.mp (cs_run_wf ops svc hsvc)
  unfold csNativeProcessRequest serviceProcessRequest
  rw [hsvc]
  simp [hdec, himpl]

/-- C7, witness: one initialize then one processRequest. -/
theorem c7_success_response_shape_witness :
    csNativeProcessRequest eOk (some "hello") (csRun [COp.opInit eOk true]) =
      JniOutcome.ok (some cascadeSuccessJson) :=
  (c7_success_response_shape [COp.opInit eOk true] eOk "hello" (by decide) rfl).1

/-- C8. getVersion of the Oracle Drive surface returns exactly the literal
version string in every state and returns the state unchanged. -/
theorem c8_get_version_constant : ∀ s : OracleState,
    oracleGetVersion s = ("Genesis Oracle Drive Integration v1.0.0", s) :=
  fun _ => rfl

/-- C9, counterexample. The unload hook run without a prior shutdown does
not always leave the context reference null: when GetEnv fails during
unload, the hook returns without any change and the retained reference
survives. -/
theorem c9_unload_getenv_failure :
    nlInited.g_context = some 0 ∧
    nlJniOnUnload eNoEnv nlInited = nlInited := by decide

/-- C9, amended. Whenever the unload hook can obtain a JNI environment it
performs exactly the release of nativeShutdown: afterwards the context
reference is null, and when shutdown already ran (context already null) the
hook changes nothing, so nothing is released twice. -/
theorem c9_unload_releases (e : JniEnv) (s : NLState) (h : e.getEnvOk = true) :
    nlJniOnUnload e s = nlNativeShutdown s ∧
    (nlJniOnUnload e s).g_context = none ∧
    (s.g_context = none → nlJniOnUnload e s = s) := by
  have heq : nlJniOnUnload e s = nlNativeShutdown s := by
    unfold nlJniOnUnload nlNativeShutdown
    simp [h]
  refine ⟨heq, ?_, ?_⟩
  · rw [heq]
    exact nl_shutdown_context_none s
  · intro hc
    rw [heq]
    exact nl_shutdown_noop s hc

/-- C9, witness: unload with a working environment after one initialize. -/
theorem c9_unload_releases_witness :
    nlJniOnUnload eOk nlInited = nlNativeShutdown nlInited ∧
    (nlJniOnUnload eOk nlInited).g_context = none ∧
    (nlInited.g_context = none → nlJniOnUnload eOk nlInited = nlInited) :=
  c9_unload_releases eOk nlInited rfl

/-- C10. The Oracle Drive lifecycle entry points are stateless: initialize
returns JNI_TRUE in every state (its failure branch is unreachable) and
mutates nothing, and shutdown mutates nothing. -/
theorem c10_oracle_stateless : ∀ s : OracleState,
    oracleInitialize s = (true, s) ∧
    (oracleInitialize s).1 ≠ false ∧
    oracleShutdown s = s :=
  fun _ => ⟨rfl, by simp [oracleInitialize], rfl⟩
